import Mathlib

/-
Verification of the investigation-tools adapter (`tool/investigation_tools.py`)
of the vectra-ai-mcp-server repository.

The module wraps an injected platform client; each operation validates its
inputs, issues at most one client call, and formats the response as a string.
We embed the operations as pure functions from an abstract client (a record of
response functions, each returning `Except` to model a raised transport error)
to a pair of the operation result (`Except String String`, where `error`
models a raised, wrapped exception) and the list of client calls issued
during the run.
-/

namespace VectraInvestigation

mutual

/-- Parsed JSON values, as produced by the platform client and consumed by
Python `json.dumps`. Python `None` and JSON `null` coincide after parsing, so
`Json.null` models both. Numbers are modelled as integers (all ids in this
module are integers). Arrays and objects use the mutual types `JList` and
`JObj` so that all recursion over values is structural. -/
inductive Json where
  | null
  | bool (b : Bool)
  | num (n : Int)
  | str (s : String)
  | arr (xs : JList)
  | obj (fields : JObj)

/-- A list of JSON values (a Python list). -/
inductive JList where
  | nil
  | cons (hd : Json) (tl : JList)

/-- An association list of JSON object fields, in insertion order (a Python
dict as `json.dumps` sees it). -/
inductive JObj where
  | nil
  | cons (key : String) (val : Json) (tl : JObj)

end

/-- Build a `JList` from a Lean list literal. -/
def JList.ofList : List Json → JList
  | [] => .nil
  | x :: xs => .cons x (JList.ofList xs)

/-- Build a `JObj` from a Lean association-list literal. -/
def JObj.ofList : List (String × Json) → JObj
  | [] => .nil
  | (k, v) :: kvs => .cons k v (JObj.ofList kvs)

/-- First binding of `key` in the object, as Python `dict` lookup (keys are
unique in a parsed JSON object, so the first binding is the binding). -/
def JObj.lookup : JObj → String → Option Json
  | .nil, _ => none
  | .cons k v tl, key => if k = key then some v else JObj.lookup tl key

/-- Hex digit for `\uXXXX` escapes. -/
def hexDigit (n : Nat) : String :=
  if n < 10 then toString n
  else if n = 10 then "a" else if n = 11 then "b" else if n = 12 then "c"
  else if n = 13 then "d" else if n = 14 then "e" else "f"

/-- Four-digit hex rendering for `\uXXXX` escapes. -/
def hex4 (n : Nat) : String :=
  hexDigit (n / 4096 % 16) ++ hexDigit (n / 256 % 16) ++ hexDigit (n / 16 % 16) ++ hexDigit (n % 16)

/-- Escape one character the way Python `json.dumps` (default
`ensure_ascii=True`) does. -/
def escChar (c : Char) : String :=
  if c = '"' then "\\\""
  else if c = '\\' then "\\\\"
  else if c = '\n' then "\\n"
  else if c = '\t' then "\\t"
  else if c = '\r' then "\\r"
  else if c.toNat < 32 ∨ c.toNat > 126 then "\\u" ++ hex4 c.toNat
  else String.mk [c]

/-- Quote a string as a JSON string literal. -/
def quoteStr (s : String) : String :=
  "\"" ++ String.join (s.data.map escChar) ++ "\""

/-- Indentation of `lvl` levels of the 2-space indentation used by `json.dumps(..., indent=2)`. -/
def indentStr (lvl : Nat) : String :=
  String.mk (List.replicate (2 * lvl) ' ')

mutual

/-- Python `json.dumps(j, indent=2)` at nesting level `lvl`. -/
def dumps2 : Nat → Json → String
  | _, .null => "null"
  | _, .bool b => if b then "true" else "false"
  | _, .num n => toString n
  | _, .str s => quoteStr s
  | _, .arr .nil => "[]"
  | lvl, .arr (.cons x xs) =>
      "[\n" ++ indentStr (lvl + 1) ++ dumps2 (lvl + 1) x ++ dumps2Rest (lvl + 1) xs
        ++ "\n" ++ indentStr lvl ++ "]"
  | _, .obj .nil => "\x7b\x7d"
  | lvl, .obj (.cons k v kvs) =>
      "\x7b\n" ++ indentStr (lvl + 1) ++ quoteStr k ++ ": " ++ dumps2 (lvl + 1) v
        ++ dumps2ORest (lvl + 1) kvs ++ "\n" ++ indentStr lvl ++ "\x7d"

/-- Remaining array elements, each preceded by a comma and newline. -/
def dumps2Rest : Nat → JList → String
  | _, .nil => ""
  | lvl, .cons x xs => ",\n" ++ indentStr lvl ++ dumps2 lvl x ++ dumps2Rest lvl xs

/-- Remaining object entries, each preceded by a comma and newline. -/
def dumps2ORest : Nat → JObj → String
  | _, .nil => ""
  | lvl, .cons k v kvs =>
      ",\n" ++ indentStr lvl ++ quoteStr k ++ ": " ++ dumps2 lvl v ++ dumps2ORest lvl kvs

end

mutual

/-- Python `json.dumps(j)` with the default separators. -/
def dumpsC : Json → String
  | .null => "null"
  | .bool b => if b then "true" else "false"
  | .num n => toString n
  | .str s => quoteStr s
  | .arr .nil => "[]"
  | .arr (.cons x xs) => "[" ++ dumpsC x ++ dumpsCRest xs ++ "]"
  | .obj .nil => "\x7b\x7d"
  | .obj (.cons k v kvs) => "\x7b" ++ quoteStr k ++ ": " ++ dumpsC v ++ dumpsCORest kvs ++ "\x7d"

/-- Remaining array elements in compact form. -/
def dumpsCRest : JList → String
  | .nil => ""
  | .cons x xs => ", " ++ dumpsC x ++ dumpsCRest xs

/-- Remaining object entries in compact form. -/
def dumpsCORest : JObj → String
  | .nil => ""
  | .cons k v kvs => ", " ++ quoteStr k ++ ": " ++ dumpsC v ++ dumpsCORest kvs

end

/-- A value of a keyword argument passed to the client (Python values of the
three types that appear in the keyword arguments of this module). -/
inductive PVal where
  | pbool (b : Bool)
  | pint (n : Int)
  | pstr (s : String)
deriving DecidableEq

/-- The argument of a `client.delete_assignment` call: the module passes an
assignment id from `delete_assignment` and a payload dict (string keys,
integer values) from `create_assignment`. -/
inductive DelArg where
  | byId (id : Int)
  | byPayload (payload : List (String × Int))
deriving DecidableEq

/-- One call issued against the injected platform client, with the arguments
the module passed. The client interface of the source (and of spec section 6)
has exactly these five operations; in particular it has no create operation. -/
inductive ClientCall where
  | getAssignments (params : List (String × PVal))
  | getAssignment (id : Int)
  | deleteAssignment (arg : DelArg)
  | addEntityNote (entityId : Int) (ty : String) (note : String)
  | markDetectionFixed (ids : List Int) (fixed : Bool)
deriving DecidableEq

/-- The injected platform client, abstracted as one response function per
operation. `Except.error msg` models the call raising an exception whose
`str()` is `msg`; `Except.ok j` models it returning the parsed JSON `j`
(`Json.null` for Python `None`). -/
structure Client where
  get_assignments : List (String × PVal) → Except String Json
  get_assignment : Int → Except String Json
  delete_assignment : DelArg → Except String Json
  add_entity_note : Int → String → String → Except String Json
  mark_detection_fixed : List Int → Bool → Except String Json

/-- A client every one of whose calls evaluates to the same response. -/
def constClient (r : Except String Json) : Client :=
  ⟨fun _ => r, fun _ => r, fun _ => r, fun _ _ _ => r, fun _ _ => r⟩

/-- Python `str()` of a list of ints, as interpolated by f-strings:
`[10, 20]`. -/
def pyListStr (ids : List Int) : String :=
  "[" ++ String.intercalate ", " (ids.map toString) ++ "]"

/-- Comma-join of the ids: `",".join(map(str, ids))`. -/
def joinComma (ids : List Int) : String :=
  String.intercalate "," (ids.map toString)

/-- Python `x.get(key)` where `x` came from parsed JSON: returns the field
(`none` for a missing key, Python `None`) when `x` is a dict, raises
`AttributeError` otherwise. The error string is `str()` of the exception. -/
def pyGetAttr : Json → String → Except String (Option Json)
  | .obj fields, key => .ok (fields.lookup key)
  | .null, _ => .error "\x27NoneType\x27 object has no attribute \x27get\x27"
  | .arr _, _ => .error "\x27list\x27 object has no attribute \x27get\x27"
  | .str _, _ => .error "\x27str\x27 object has no attribute \x27get\x27"
  | .num _, _ => .error "\x27int\x27 object has no attribute \x27get\x27"
  | .bool _, _ => .error "\x27bool\x27 object has no attribute \x27get\x27"

/-- Python `x[key]` subscription on a parsed JSON value: field lookup on a
dict (`KeyError` if absent, whose `str()` is the quoted key), `TypeError`
otherwise. -/
def pySubscript : Json → String → Except String Json
  | .obj fields, key =>
      match fields.lookup key with
      | some v => .ok v
      | none => .error ("\x27" ++ key ++ "\x27")
  | .null, _ => .error "\x27NoneType\x27 object is not subscriptable"
  | .arr _, _ => .error "list indices must be integers or slices, not str"
  | .str _, _ => .error "string indices must be integers"
  | .num _, _ => .error "\x27int\x27 object is not subscriptable"
  | .bool _, _ => .error "\x27bool\x27 object is not subscriptable"

/-- Python truth-value test on a parsed JSON value (`if not x` takes the
sentinel branch exactly when this is `false`). -/
def pyTruthy : Json → Bool
  | .null => false
  | .bool b => b
  | .num n => n ≠ 0
  | .str s => s ≠ ""
  | .arr .nil => false
  | .arr (.cons _ _) => true
  | .obj .nil => false
  | .obj (.cons _ _ _) => true

/-- A naive `datetime` as far as this module observes it: six calendar
fields. -/
structure PyDatetime where
  year : Nat
  month : Nat
  day : Nat
  hour : Nat
  minute : Nat
  second : Nat
deriving DecidableEq

/-- Zero-pad to two digits. -/
def pad2 (n : Nat) : String :=
  if n < 10 then "0" ++ toString n else toString n

/-- Zero-pad to four digits. -/
def pad4 (n : Nat) : String :=
  if n < 10 then "000" ++ toString n
  else if n < 100 then "00" ++ toString n
  else if n < 1000 then "0" ++ toString n
  else toString n

/-- Python `datetime.isoformat()` for a whole-second datetime:
`YYYY-MM-DDTHH:MM:SS`. -/
def PyDatetime.isoformat (d : PyDatetime) : String :=
  pad4 d.year ++ "-" ++ pad2 d.month ++ "-" ++ pad2 d.day ++ "T"
    ++ pad2 d.hour ++ ":" ++ pad2 d.minute ++ ":" ++ pad2 d.second

/-- Numeric value of a decimal digit character. -/
def digitVal (c : Char) : Option Nat :=
  if c.isDigit then some (c.toNat - 48) else none

/-- Numeric value of a fixed-width run of decimal digits. -/
def digitsVal : List Char → Option Nat
  | [] => some 0
  | c :: cs =>
      match digitVal c, digitsVal cs with
      | some d, some rest => some (d * 10 ^ cs.length + rest)
      | _, _ => none

/-- Parse a `YYYY-MM-DDTHH:MM:SS` string into a datetime; `none` when the
string does not have exactly that shape with in-range fields. -/
def parseDatetime (s : String) : Option PyDatetime :=
  match s.data with
  | [y1, y2, y3, y4, '-', mo1, mo2, '-', d1, d2, 'T', h1, h2, ':', mi1, mi2, ':', se1, se2] =>
      match digitsVal [y1, y2, y3, y4], digitsVal [mo1, mo2], digitsVal [d1, d2],
            digitsVal [h1, h2], digitsVal [mi1, mi2], digitsVal [se1, se2] with
      | some y, some mo, some d, some h, some mi, some se =>
          if 1 ≤ mo ∧ mo ≤ 12 ∧ 1 ≤ d ∧ d ≤ 31 ∧ h ≤ 23 ∧ mi ≤ 59 ∧ se ≤ 59 then
            some ⟨y, mo, d, h, mi, se⟩
          else none
      | _, _, _, _, _, _ => none
  | _ => none

/-- Parse one optional boundary string, raising a validation error when it
does not parse. -/
def parseBoundary : Option String → Except String (Option PyDatetime)
  | none => .ok none
  | some s =>
      match parseDatetime s with
      | some d => .ok (some d)
      | none => .error ("Invalid date format: " ++ s ++ ". Expected format: YYYY-MM-DDTHH:MM:SS")

/-- Modelled from the spec: `validate_date_range` is imported from
`utils/validators`, which is not under `src/`. Per spec sections 4.1 and 6 it
accepts an optional "after" string and an optional "before" string in
`YYYY-MM-DDTHH:MM:SS` format, returns the parsed lower/upper bounds, and
signals a validation failure (a raised error, caught and re-wrapped by the
caller) when a given string does not parse. -/
def validate_date_range (after before : Option String) :
    Except String (Option PyDatetime × Option PyDatetime) := do
  let lo ← parseBoundary after
  let hi ← parseBoundary before
  return (lo, hi)

/-
The eight operations of `InvestigationMCPTools`. Each takes the injected
client and the operation arguments, and returns the operation result paired
with the list of client calls issued. A Python `raise` escaping the method is
`Except.error` with the `str()` of the raised exception; the `try/except`
of each method wraps any failure into such a message.
-/

/-- Post-call processing of `list_assignments` and `list_assignments_for_user`
(both share it verbatim): `None` becomes the sentinel, a raised error is
wrapped with the shared "Failed to list assignments" text, anything else is
pretty-printed. -/
def listAssignmentsBody (resp : Except String Json) : Except String String :=
  match resp with
  | .error e => .error ("Failed to list assignments: " ++ e)
  | .ok .null => .ok "No assignments found."
  | .ok j => .ok (dumps2 0 j)

/-- Embeds `InvestigationMCPTools.list_assignments`. -/
def list_assignments (c : Client) (resolved : Bool) (created_after : Option String) :
    Except String String × List ClientCall :=
  match validate_date_range created_after none with
  | .error e => (.error ("Failed to list assignments: " ++ e), [])
  | .ok (start_date, _) =>
      let search_params :=
        match start_date with
        | some d => [("resolved", PVal.pbool resolved), ("created_after", PVal.pstr d.isoformat)]
        | none => [("resolved", PVal.pbool resolved)]
      (listAssignmentsBody (c.get_assignments search_params),
       [ClientCall.getAssignments search_params])

/-- Embeds `InvestigationMCPTools.list_assignments_for_user`. -/
def list_assignments_for_user (c : Client) (user_id : Int) (resolved : Bool) :
    Except String String × List ClientCall :=
  let search_params := [("assignee", PVal.pint user_id), ("resolved", PVal.pbool resolved)]
  (listAssignmentsBody (c.get_assignments search_params),
   [ClientCall.getAssignments search_params])

/-- Post-call processing of `get_assignment_detail_by_id`. -/
def getAssignmentDetailBody (assignment_id : Int) (resp : Except String Json) :
    Except String String :=
  match resp with
  | .error e => .error ("Failed to list assignment : " ++ toString assignment_id ++ ": " ++ e)
  | .ok j => .ok (dumps2 0 j)

/-- Embeds `InvestigationMCPTools.get_assignment_detail_by_id`. -/
def get_assignment_detail_by_id (c : Client) (assignment_id : Int) :
    Except String String × List ClientCall :=
  (getAssignmentDetailBody assignment_id (c.get_assignment assignment_id),
   [ClientCall.getAssignment assignment_id])

/-- The wrapped error message of `get_assignment_for_entity`. -/
def entityWrapMsg (entity_type : String) (entity_ids : List Int) (e : String) : String :=
  "Failed to fetch assignment for " ++ entity_type ++ ": " ++ pyListStr entity_ids ++ ": " ++ e

/-- Post-call processing of `get_assignment_for_entity`: subscript the
response at `results` (a raised `TypeError`/`KeyError` is wrapped like any
other failure), return the sentinel when the result set is falsy, else
pretty-print it. -/
def entityBody (entity_type : String) (entity_ids : List Int) (resp : Except String Json) :
    Except String String :=
  match resp with
  | .error e => .error (entityWrapMsg entity_type entity_ids e)
  | .ok j =>
      match pySubscript j "results" with
      | .error e => .error (entityWrapMsg entity_type entity_ids e)
      | .ok v =>
          if pyTruthy v then .ok (dumps2 0 v)
          else .ok ("No assignments found for " ++ entity_type ++ ": " ++ pyListStr entity_ids ++ ".")

/-- Embeds `InvestigationMCPTools.get_assignment_for_entity`. -/
def get_assignment_for_entity (c : Client) (entity_ids : List Int) (entity_type : String) :
    Except String String × List ClientCall :=
  if entity_type = "host" ∨ entity_type = "account" then
    let search_params :=
      if entity_type = "host" then [("hosts", PVal.pstr (joinComma entity_ids))]
      else [("accounts", PVal.pstr (joinComma entity_ids))]
    (entityBody entity_type entity_ids (c.get_assignments search_params),
     [ClientCall.getAssignments search_params])
  else
    (.error (entityWrapMsg entity_type entity_ids
      "entity_type must be either \x27host\x27 or \x27account\x27."), [])

/-- Post-call processing of `create_assignment`: the source evaluates
`assignment.get("assignment").get("id")` (raising on a non-dict response or a
missing `assignment` key) and then returns `json.dumps(assignment)` with the
default compact separators. -/
def createAssignmentBody (resp : Except String Json) : Except String String :=
  match resp with
  | .error e => .error ("Failed to create assignment: " ++ e)
  | .ok j =>
      match pyGetAttr j "assignment" with
      | .error e => .error ("Failed to create assignment: " ++ e)
      | .ok sub =>
          match sub with
          | none => .error ("Failed to create assignment: "
              ++ "\x27NoneType\x27 object has no attribute \x27get\x27")
          | some subj =>
              match pyGetAttr subj "id" with
              | .error e => .error ("Failed to create assignment: " ++ e)
              | .ok _ => .ok (dumpsC j)

/-- The payload dict `create_assignment` constructs before its `try` block. -/
def createAssignmentPayload (assign_to_user_id assign_entity_id : Int)
    (assign_entity_type : String) : List (String × Int) :=
  if assign_entity_type = "account" then
    [("assign_to_user_id", assign_to_user_id), ("assign_account_id", assign_entity_id)]
  else
    [("assign_to_user_id", assign_to_user_id), ("assign_host_id", assign_entity_id)]

/-- Embeds `InvestigationMCPTools.create_assignment`. The source passes the
constructed payload to `self.client.delete_assignment`, not to any
create-style client operation. -/
def create_assignment (c : Client) (assign_to_user_id assign_entity_id : Int)
    (assign_entity_type : String) : Except String String × List ClientCall :=
  let assignment_data := createAssignmentPayload assign_to_user_id assign_entity_id
    assign_entity_type
  (createAssignmentBody (c.delete_assignment (.byPayload assignment_data)),
   [ClientCall.deleteAssignment (.byPayload assignment_data)])

/-- Post-call processing of `create_entity_note`. -/
def createNoteBody (entity_id : Int) (resp : Except String Json) : Except String String :=
  match resp with
  | .error e => .error ("Failed to add note to entity " ++ toString entity_id ++ ": " ++ e)
  | .ok j => .ok (dumps2 0 j)

/-- Embeds `InvestigationMCPTools.create_entity_note`. -/
def create_entity_note (c : Client) (entity_id : Int) (entity_type : String) (note : String) :
    Except String String × List ClientCall :=
  if entity_type = "host" ∨ entity_type = "account" then
    (createNoteBody entity_id (c.add_entity_note entity_id entity_type note),
     [ClientCall.addEntityNote entity_id entity_type note])
  else
    (.error ("Failed to add note to entity " ++ toString entity_id
      ++ ": entity_type must be either \x27host\x27 or \x27account\x27."), [])

/-- Post-call processing of `mark_detection_fixed` on a non-empty id list:
the confirmation string is built from the inputs alone, the response is
discarded. -/
def markDetectionBody (detection_ids : List Int) (mark_fixed : Bool)
    (resp : Except String Json) : Except String String :=
  match resp with
  | .error e => .error ("Failed to mark detections: " ++ e)
  | .ok _ => .ok ("Marked " ++ toString detection_ids.length ++ " detections as "
      ++ (if mark_fixed then "fixed" else "not fixed") ++ ".")

/-- Embeds `InvestigationMCPTools.mark_detection_fixed`. -/
def mark_detection_fixed (c : Client) (detection_ids : List Int) (mark_fixed : Bool) :
    Except String String × List ClientCall :=
  match detection_ids with
  | [] => (.ok "No detection IDs provided.", [])
  | _ :: _ =>
      (markDetectionBody detection_ids mark_fixed (c.mark_detection_fixed detection_ids mark_fixed),
       [ClientCall.markDetectionFixed detection_ids mark_fixed])

/-- Post-call processing of `delete_assignment`. -/
def deleteAssignmentBody (assignment_id : Int) (resp : Except String Json) :
    Except String String :=
  match resp with
  | .error e => .error ("Failed to delete assignment " ++ toString assignment_id ++ ": " ++ e)
  | .ok _ => .ok ("Assignment " ++ toString assignment_id ++ " deleted successfully.")

/-- Embeds `InvestigationMCPTools.delete_assignment`. -/
def delete_assignment (c : Client) (assignment_id : Int) :
    Except String String × List ClientCall :=
  (deleteAssignmentBody assignment_id (c.delete_assignment (.byId assignment_id)),
   [ClientCall.deleteAssignment (.byId assignment_id)])

/-
Auxiliary concrete values and clients used by the theorems below.
-/

/-- Substring test helper: does the pattern lead the text? -/
def leadsWith : List Char → List Char → Bool
  | [], _ => true
  | _ :: _, [] => false
  | p :: ps, c :: cs => p == c && leadsWith ps cs

/-- Substring test helper: does the pattern occur contiguously in the text? -/
def hasSegment : List Char → List Char → Bool
  | pat, [] => leadsWith pat []
  | pat, c :: cs => leadsWith pat (c :: cs) || hasSegment pat cs

/-- Whether `pat` occurs as a contiguous substring of `s`. -/
def occursIn (pat s : String) : Bool :=
  hasSegment pat.data s.data

/-- Spec-vocabulary predicate: a JSON value that is an empty collection (the
"empty collection" / "empty" wording of the spec), i.e. an empty array or an
empty object. Used only to compare claims against the broader Python
truth-value test the code performs. -/
def isEmptyColl : Json → Bool
  | .arr .nil => true
  | .obj .nil => true
  | _ => false

/-- A response a create-assignment call could plausibly return:
`{"assignment": {"id": 9}}`. -/
def assignResp : Json :=
  Json.obj (.cons "assignment" (Json.obj (.cons "id" (.num 9) .nil)) .nil)

/-- A mapping with a non-empty result set and a sibling field:
`{"results": [1], "count": 1}`. -/
def resultsWithCount : Json :=
  Json.obj (.cons "results" (Json.arr (.cons (.num 1) .nil)) (.cons "count" (.num 1) .nil))

/-- A mapping whose `results` field is JSON `null`: `{"results": null}`. -/
def nullResults : Json :=
  Json.obj (.cons "results" Json.null .nil)

/-
Claim theorems.
-/

/-- C1: the claim says `create_assignment` issues exactly one create call with
the constructed payload. The code instead passes the payload to the client
delete operation: for every client and every input, the single client call of
the run is `delete_assignment` (the client interface has no create operation
at all), and on the failing input `(1, 2, "account")` the returned value is
the compact serialization of whatever the delete call returned. -/
theorem create_assignment_calls_delete (c : Client) (uid eid : Int) :
    (create_assignment c uid eid "account").snd =
      [ClientCall.deleteAssignment (.byPayload
        [("assign_to_user_id", uid), ("assign_account_id", eid)])] ∧
    (create_assignment c uid eid "host").snd =
      [ClientCall.deleteAssignment (.byPayload
        [("assign_to_user_id", uid), ("assign_host_id", eid)])] ∧
    (create_assignment (constClient (.ok assignResp)) 1 2 "account").fst =
      .ok (dumpsC assignResp) :=
  ⟨rfl, rfl, rfl⟩

/-- C2 counterexample: with a client that returns the empty collection `[]`,
`list_assignments` and `list_assignments_for_user` return the serialized empty
JSON `"[]"`, not the literal no-results string the claim requires. -/
theorem empty_collection_not_sentinel :
    (list_assignments (constClient (.ok (Json.arr .nil))) false none).fst = .ok "[]" ∧
    (list_assignments_for_user (constClient (.ok (Json.arr .nil))) 7 false).fst = .ok "[]" ∧
    "[]" ≠ "No assignments found." :=
  ⟨rfl, rfl, by decide⟩

/-- C2 amended: only a `None` response makes `list_assignments` and
`list_assignments_for_user` return the literal no-results string; an empty
collection response is serialized as `"[]"` instead. -/
theorem none_response_returns_sentinel (c c2 : Client) (resolved : Bool) (uid : Int)
    (h1 : c.get_assignments [("resolved", PVal.pbool resolved)] = .ok Json.null)
    (h2 : c.get_assignments [("assignee", PVal.pint uid), ("resolved", PVal.pbool resolved)] =
      .ok Json.null)
    (h3 : c2.get_assignments [("resolved", PVal.pbool resolved)] = .ok (Json.arr .nil))
    (h4 : c2.get_assignments [("assignee", PVal.pint uid), ("resolved", PVal.pbool resolved)] =
      .ok (Json.arr .nil)) :
    (list_assignments c resolved none).fst = .ok "No assignments found." ∧
    (list_assignments_for_user c uid resolved).fst = .ok "No assignments found." ∧
    (list_assignments c2 resolved none).fst = .ok "[]" ∧
    (list_assignments_for_user c2 uid resolved).fst = .ok "[]" := by
  refine ⟨?_, ?_, ?_, ?_⟩
  · show listAssignmentsBody (c.get_assignments [("resolved", PVal.pbool resolved)]) = _
    rw [h1]; rfl
  · show listAssignmentsBody (c.get_assignments
      [("assignee", PVal.pint uid), ("resolved", PVal.pbool resolved)]) = _
    rw [h2]; rfl
  · show listAssignmentsBody (c2.get_assignments [("resolved", PVal.pbool resolved)]) = _
    rw [h3]; rfl
  · show listAssignmentsBody (c2.get_assignments
      [("assignee", PVal.pint uid), ("resolved", PVal.pbool resolved)]) = _
    rw [h4]; rfl

/-- C2 amended, witness at concrete clients (one answering `None`, one
answering `[]`), `resolved := false`, `uid := 7`. -/
theorem none_response_returns_sentinel_witness :
    (constClient (.ok Json.null)).get_assignments [("resolved", PVal.pbool false)] =
      .ok Json.null ∧
    ((list_assignments (constClient (.ok Json.null)) false none).fst =
        .ok "No assignments found." ∧
      (list_assignments_for_user (constClient (.ok Json.null)) 7 false).fst =
        .ok "No assignments found." ∧
      (list_assignments (constClient (.ok (Json.arr .nil))) false none).fst = .ok "[]" ∧
      (list_assignments_for_user (constClient (.ok (Json.arr .nil))) 7 false).fst = .ok "[]") :=
  ⟨rfl, none_response_returns_sentinel (constClient (.ok Json.null))
    (constClient (.ok (Json.arr .nil))) false 7 rfl rfl rfl rfl⟩

/-- C3: for every `entity_type` other than `"host"` and `"account"`,
`get_assignment_for_entity` and `create_entity_note` fail with the wrapped
validation error and issue no client call. -/
theorem invalid_entity_type_rejected_before_client (c : Client) (ids : List Int)
    (eid : Int) (note ty : String) (h1 : ty ≠ "host") (h2 : ty ≠ "account") :
    (get_assignment_for_entity c ids ty).snd = [] ∧
    (get_assignment_for_entity c ids ty).fst = .error (entityWrapMsg ty ids
      "entity_type must be either \x27host\x27 or \x27account\x27.") ∧
    (create_entity_note c eid ty note).snd = [] ∧
    (create_entity_note c eid ty note).fst = .error ("Failed to add note to entity "
      ++ toString eid ++ ": entity_type must be either \x27host\x27 or \x27account\x27.") := by
  have hcond : ¬(ty = "host" ∨ ty = "account") := by
    rintro (h | h)
    · exact h1 h
    · exact h2 h
  refine ⟨?_, ?_, ?_, ?_⟩ <;>
    simp only [get_assignment_for_entity, create_entity_note, if_neg hcond]

/-- C3, witness at `ty := "detection"` with a concrete client. -/
theorem invalid_entity_type_rejected_before_client_witness :
    ("detection" : String) ≠ "host" ∧ ("detection" : String) ≠ "account" ∧
    ((get_assignment_for_entity (constClient (.ok Json.null)) [1] "detection").snd = [] ∧
      (get_assignment_for_entity (constClient (.ok Json.null)) [1] "detection").fst =
        .error (entityWrapMsg "detection" [1]
          "entity_type must be either \x27host\x27 or \x27account\x27.") ∧
      (create_entity_note (constClient (.ok Json.null)) 5 "detection" "check this").snd = [] ∧
      (create_entity_note (constClient (.ok Json.null)) 5 "detection" "check this").fst =
        .error ("Failed to add note to entity 5: entity_type must be either \x27host\x27 or \x27account\x27.")) :=
  ⟨by decide, by decide,
    invalid_entity_type_rejected_before_client (constClient (.ok Json.null)) [1] 5
      "check this" "detection" (by decide) (by decide)⟩

/-- C5: `list_assignments` with `created_after = "2024-01-01T00:00:00"` issues
exactly one client call whose parameters carry that timestamp as the lower
bound; with the unparsable `created_after = "not-a-date"` it fails with the
wrapped validation error and issues no client call. -/
theorem created_after_validation (c : Client) (resolved : Bool) :
    (list_assignments c resolved (some "2024-01-01T00:00:00")).snd =
      [ClientCall.getAssignments
        [("resolved", PVal.pbool resolved), ("created_after", PVal.pstr "2024-01-01T00:00:00")]] ∧
    (list_assignments c resolved (some "not-a-date")).fst =
      .error ("Failed to list assignments: Invalid date format: not-a-date. "
        ++ "Expected format: YYYY-MM-DDTHH:MM:SS") ∧
    (list_assignments c resolved (some "not-a-date")).snd = [] :=
  ⟨rfl, rfl, rfl⟩

/-- C6: for every non-empty id list, `get_assignment_for_entity` queries the
client once with the comma-joined ids under the `hosts` key for entity type
`"host"` and under the `accounts` key for `"account"`. -/
theorem entity_filter_comma_join (c : Client) (ids : List Int) (hne : ids ≠ []) :
    (get_assignment_for_entity c ids "host").snd =
      [ClientCall.getAssignments [("hosts", PVal.pstr (joinComma ids))]] ∧
    (get_assignment_for_entity c ids "account").snd =
      [ClientCall.getAssignments [("accounts", PVal.pstr (joinComma ids))]] :=
  ⟨rfl, rfl⟩

/-- C6, witness at `ids := [10, 20]`: the joined filter value is `"10,20"`. -/
theorem entity_filter_comma_join_witness :
    ([10, 20] : List Int) ≠ [] ∧
    ((get_assignment_for_entity (constClient (.ok Json.null)) [10, 20] "host").snd =
        [ClientCall.getAssignments [("hosts", PVal.pstr "10,20")]] ∧
      (get_assignment_for_entity (constClient (.ok Json.null)) [10, 20] "account").snd =
        [ClientCall.getAssignments [("accounts", PVal.pstr "10,20")]]) :=
  ⟨by decide, entity_filter_comma_join (constClient (.ok Json.null)) [10, 20] (by decide)⟩

/-- C7: `mark_detection_fixed` on an empty id list returns the literal
no-ids string and issues no client call, for every client and either value of
`mark_fixed`. -/
theorem mark_detection_fixed_empty_short_circuit (c : Client) (mark_fixed : Bool) :
    mark_detection_fixed c [] mark_fixed = (.ok "No detection IDs provided.", []) :=
  rfl

/-- A client every one of whose calls raises an exception with message `e`. -/
def errClient (e : String) : Client :=
  constClient (.error e)

/-- C4 counterexample: when the client answers `get_assignment_for_entity`
with the mapping `seen as resultsWithCount` (a `results` list plus a sibling
`count` field), the success output serializes only the `results` value, which
differs from the serialization of the returned mapping — the `count` field is
dropped. -/
theorem entity_read_drops_fields :
    (get_assignment_for_entity (constClient (.ok resultsWithCount)) [10] "host").fst =
      .ok (dumps2 0 (Json.arr (.cons (.num 1) .nil))) ∧
    dumps2 0 (Json.arr (.cons (.num 1) .nil)) ≠ dumps2 0 resultsWithCount :=
  ⟨rfl, by decide⟩

/-- C4 amended: `list_assignments` and `get_assignment_detail_by_id`
reproduce the returned mapping byte for byte as its JSON serialization, but
`get_assignment_for_entity` serializes only the `results` value of the
returned mapping, dropping its other fields. -/
theorem read_ops_serialization (c : Client) (resolved : Bool) (aid : Int) (ids : List Int)
    (f1 g1 f2 : JObj) (v : Json)
    (h1 : c.get_assignments [("resolved", PVal.pbool resolved)] = .ok (Json.obj f1))
    (h2 : c.get_assignment aid = .ok (Json.obj g1))
    (h3 : c.get_assignments [("hosts", PVal.pstr (joinComma ids))] = .ok (Json.obj f2))
    (h4 : f2.lookup "results" = some v)
    (h5 : pyTruthy v = true) :
    (list_assignments c resolved none).fst = .ok (dumps2 0 (Json.obj f1)) ∧
    (get_assignment_detail_by_id c aid).fst = .ok (dumps2 0 (Json.obj g1)) ∧
    (get_assignment_for_entity c ids "host").fst = .ok (dumps2 0 v) := by
  refine ⟨?_, ?_, ?_⟩
  · show listAssignmentsBody (c.get_assignments [("resolved", PVal.pbool resolved)]) = _
    rw [h1]; rfl
  · show getAssignmentDetailBody aid (c.get_assignment aid) = _
    rw [h2]; rfl
  · show entityBody "host" ids (c.get_assignments [("hosts", PVal.pstr (joinComma ids))]) = _
    rw [h3]
    simp [entityBody, pySubscript, h4, h5]

/-- C4 amended, witness: a client answering every read with
`resultsWithCount` at `resolved := false`, `aid := 3`, `ids := [10]`. -/
theorem read_ops_serialization_witness :
    (constClient (.ok resultsWithCount)).get_assignment 3 = .ok resultsWithCount ∧
    ((list_assignments (constClient (.ok resultsWithCount)) false none).fst =
        .ok (dumps2 0 resultsWithCount) ∧
      (get_assignment_detail_by_id (constClient (.ok resultsWithCount)) 3).fst =
        .ok (dumps2 0 resultsWithCount) ∧
      (get_assignment_for_entity (constClient (.ok resultsWithCount)) [10] "host").fst =
        .ok (dumps2 0 (Json.arr (.cons (.num 1) .nil)))) :=
  ⟨rfl, read_ops_serialization (constClient (.ok resultsWithCount)) false 3 [10]
    (.cons "results" (Json.arr (.cons (.num 1) .nil)) (.cons "count" (.num 1) .nil))
    (.cons "results" (Json.arr (.cons (.num 1) .nil)) (.cons "count" (.num 1) .nil))
    (.cons "results" (Json.arr (.cons (.num 1) .nil)) (.cons "count" (.num 1) .nil))
    (Json.arr (.cons (.num 1) .nil)) rfl rfl rfl rfl rfl⟩

/-- C8 counterexample: when the client raises `boom`,
`list_assignments_for_user` called with user id `7` re-raises
`Failed to list assignments: boom` — a message that contains neither the
user id `7` nor anything identifying the `list_assignments_for_user`
operation as opposed to `list_assignments`. -/
theorem user_error_message_lacks_identifiers :
    (list_assignments_for_user (errClient "boom") 7 false).fst =
      .error "Failed to list assignments: boom" ∧
    occursIn "7" "Failed to list assignments: boom" = false ∧
    occursIn "user" "Failed to list assignments: boom" = false :=
  ⟨rfl, by decide, by decide⟩

/-- C8 amended: every failure is re-raised as a generic error whose message
describes the attempted operation and appends the original error text;
`get_assignment_detail_by_id`, `get_assignment_for_entity`,
`create_entity_note` and `delete_assignment` also include the relevant
identifiers of the invocation, but `list_assignments_for_user` (which reuses
the `Failed to list assignments` text without the user id),
`create_assignment` and `mark_detection_fixed` do not. -/
theorem error_wrapping_messages (e note : String) (uid aid eid did d0 : Int)
    (ids dids : List Int) (resolved b : Bool) :
    (list_assignments (errClient e) resolved none).fst =
      .error ("Failed to list assignments: " ++ e) ∧
    (list_assignments_for_user (errClient e) uid resolved).fst =
      .error ("Failed to list assignments: " ++ e) ∧
    (get_assignment_detail_by_id (errClient e) aid).fst =
      .error ("Failed to list assignment : " ++ toString aid ++ ": " ++ e) ∧
    (get_assignment_for_entity (errClient e) ids "host").fst =
      .error (entityWrapMsg "host" ids e) ∧
    (get_assignment_for_entity (errClient e) ids "detection").fst =
      .error (entityWrapMsg "detection" ids
        "entity_type must be either \x27host\x27 or \x27account\x27.") ∧
    (create_assignment (errClient e) uid eid "account").fst =
      .error ("Failed to create assignment: " ++ e) ∧
    (create_entity_note (errClient e) eid "account" note).fst =
      .error ("Failed to add note to entity " ++ toString eid ++ ": " ++ e) ∧
    (mark_detection_fixed (errClient e) (d0 :: dids) b).fst =
      .error ("Failed to mark detections: " ++ e) ∧
    (delete_assignment (errClient e) did).fst =
      .error ("Failed to delete assignment " ++ toString did ++ ": " ++ e) :=
  ⟨rfl, rfl, rfl, rfl, rfl, rfl, rfl, rfl, rfl⟩

/-- C9 counterexample: a response whose `results` field is JSON `null` (not an
empty collection) still makes `get_assignment_for_entity` return the
no-assignments sentinel, against the claim that the sentinel is returned only
for a mapping whose `results` value is empty. -/
theorem sentinel_on_null_results :
    (constClient (.ok nullResults)).get_assignments
      [("hosts", PVal.pstr (joinComma [10]))] = .ok nullResults ∧
    JObj.lookup (.cons "results" Json.null .nil) "results" = some Json.null ∧
    isEmptyColl Json.null = false ∧
    (get_assignment_for_entity (constClient (.ok nullResults)) [10] "host").fst =
      .ok "No assignments found for host: [10]." :=
  ⟨rfl, rfl, rfl, rfl⟩

/-- C9 amended: a `None` response and a mapping without a `results` key make
`get_assignment_for_entity` raise the wrapped `Failed to fetch assignment for
...` error; the no-assignments sentinel is returned exactly when the response
is a mapping whose `results` value is falsy under the Python truth-value test
(`null`, `false`, `0`, the empty string, an empty array or an empty object —
not only an empty collection). -/
theorem entity_results_handling (c1 c2 c3 : Client) (ids : List Int)
    (f2 f3 : JObj) (v : Json)
    (h1 : c1.get_assignments [("hosts", PVal.pstr (joinComma ids))] = .ok Json.null)
    (h2 : c2.get_assignments [("hosts", PVal.pstr (joinComma ids))] = .ok (Json.obj f2))
    (h2m : f2.lookup "results" = none)
    (h3 : c3.get_assignments [("hosts", PVal.pstr (joinComma ids))] = .ok (Json.obj f3))
    (h3r : f3.lookup "results" = some v)
    (h3f : pyTruthy v = false) :
    (get_assignment_for_entity c1 ids "host").fst =
      .error (entityWrapMsg "host" ids "\x27NoneType\x27 object is not subscriptable") ∧
    (get_assignment_for_entity c2 ids "host").fst =
      .error (entityWrapMsg "host" ids "\x27results\x27") ∧
    (get_assignment_for_entity c3 ids "host").fst =
      .ok ("No assignments found for host: " ++ pyListStr ids ++ ".") := by
  refine ⟨?_, ?_, ?_⟩
  · show entityBody "host" ids (c1.get_assignments [("hosts", PVal.pstr (joinComma ids))]) = _
    rw [h1]; rfl
  · show entityBody "host" ids (c2.get_assignments [("hosts", PVal.pstr (joinComma ids))]) = _
    rw [h2]
    simp [entityBody, pySubscript, h2m]
  · show entityBody "host" ids (c3.get_assignments [("hosts", PVal.pstr (joinComma ids))]) = _
    rw [h3]
    simp [entityBody, pySubscript, h3r, h3f]

/-- C9 amended, witness: three concrete clients (responding `None`, `{}`,
and `{"results": []}`) at `ids := [10]`. -/
theorem entity_results_handling_witness :
    (constClient (.ok Json.null)).get_assignments
      [("hosts", PVal.pstr (joinComma [10]))] = .ok Json.null ∧
    ((get_assignment_for_entity (constClient (.ok Json.null)) [10] "host").fst =
        .error (entityWrapMsg "host" [10] "\x27NoneType\x27 object is not subscriptable") ∧
      (get_assignment_for_entity (constClient (.ok (Json.obj .nil))) [10] "host").fst =
        .error (entityWrapMsg "host" [10] "\x27results\x27") ∧
      (get_assignment_for_entity
          (constClient (.ok (Json.obj (.cons "results" (Json.arr .nil) .nil)))) [10] "host").fst =
        .ok ("No assignments found for host: " ++ pyListStr [10] ++ ".")) :=
  ⟨rfl, entity_results_handling (constClient (.ok Json.null)) (constClient (.ok (Json.obj .nil)))
    (constClient (.ok (Json.obj (.cons "results" (Json.arr .nil) .nil)))) [10]
    .nil (.cons "results" (Json.arr .nil) .nil) (Json.arr .nil)
    rfl rfl rfl rfl rfl rfl⟩

/-- C10: on a non-empty id list whose client call does not raise, the string
`mark_detection_fixed` returns is determined by the inputs alone — two runs
with the same inputs against clients giving any two successful responses
return the identical string. -/
theorem mark_detection_response_independent (c1 c2 : Client) (ids : List Int) (b : Bool)
    (r1 r2 : Json) (hne : ids ≠ [])
    (h1 : c1.mark_detection_fixed ids b = .ok r1)
    (h2 : c2.mark_detection_fixed ids b = .ok r2) :
    (mark_detection_fixed c1 ids b).fst = (mark_detection_fixed c2 ids b).fst := by
  cases ids with
  | nil => exact absurd rfl hne
  | cons d ds =>
      show markDetectionBody (d :: ds) b (c1.mark_detection_fixed (d :: ds) b) =
        markDetectionBody (d :: ds) b (c2.mark_detection_fixed (d :: ds) b)
      rw [h1, h2]
      rfl


/-- C10, witness: two clients answering `null` and `1` respectively at
`ids := [1, 2, 3]`, `mark_fixed := true`. -/
theorem mark_detection_response_independent_witness :
    ([1, 2, 3] : List Int) ≠ [] ∧
    (constClient (.ok Json.null)).mark_detection_fixed [1, 2, 3] true = .ok Json.null ∧
    (constClient (.ok (Json.num 1))).mark_detection_fixed [1, 2, 3] true = .ok (Json.num 1) ∧
    (mark_detection_fixed (constClient (.ok Json.null)) [1, 2, 3] true).fst =
      (mark_detection_fixed (constClient (.ok (Json.num 1))) [1, 2, 3] true).fst :=
  ⟨by decide, rfl, rfl,
    mark_detection_response_independent (constClient (.ok Json.null))
      (constClient (.ok (Json.num 1))) [1, 2, 3] true Json.null (Json.num 1)
      (by decide) rfl rfl⟩

end VectraInvestigation
